import Mathlib

/-!
Verification development for the tournament match orchestrator
(`engine/gameplay.py`, `engine/player_process.py`) and its game state
machine (`engine/game/board.py`, `chicken.py`, `game_map.py`).

The Python source is shallowly embedded: Python ints become `Int`,
wall-clock seconds (Python floats, used only through `+ - < <=` and
literals) become `Rat`, Python sets of coordinate pairs become
`Finset (Int × Int)`, and the nondeterministic environment (agent
replies, their arrival times, trapdoor locations) is passed in as
explicit oracle data.  Process-scheduling behaviour is embedded as the
event trace the orchestrator emits (start / SIGCONT / play command /
SIGSTOP per side) together with the suspended-or-running state each
event induces on a handle.
-/

namespace ChickenGame

/- The Batteries rational-number arithmetic is `@[irreducible]`, which
blocks `decide`-style evaluation of concrete match runs; the kernel
itself reduces these fine (`Nat.gcd` is kernel-accelerated), so restore
the default reducibility for this file. -/
attribute [local semireducible] Rat.sub Rat.add Rat.mul Rat.inv

abbrev Loc := Int × Int

/-- `game.enums.Direction`. -/
inductive Direction
  | up
  | right
  | down
  | left
deriving DecidableEq, Repr

/-- `game.enums.MoveType`. -/
inductive MoveType
  | plain
  | egg
  | turd
deriving DecidableEq, Repr

/-- `game.enums.Result` (perspective-relative outcome). -/
inductive Result
  | player
  | enemy
  | tie
  | error
deriving DecidableEq, Repr

/-- `game.enums.ResultArbiter` (fixed-identity outcome). -/
inductive ResultArbiter
  | player_a
  | player_b
  | tie
  | error
deriving DecidableEq, Repr

/-- `game.enums.WinReason`. -/
inductive WinReason
  | eggs_laid
  | blocking_end
  | timeout
  | invalid_turn
  | code_crash
  | memory_error
  | failed_init
deriving DecidableEq, Repr

/-- `game.enums.loc_after_direction` (total here because `Direction` is the enum type). -/
def loc_after_direction (loc : Loc) (dir : Direction) : Loc :=
  match dir with
  | .up => (loc.1, loc.2 - 1)
  | .down => (loc.1, loc.2 + 1)
  | .left => (loc.1 - 1, loc.2)
  | .right => (loc.1 + 1, loc.2)

/-- `game.board.manhattan_distance`. -/
def manhattan_distance (p1 p2 : Loc) : Int :=
  |p1.1 - p2.1| + |p1.2 - p2.2|

/-- `game.game_map.GameMap` constants (the `reflect` helper and the
sensing probabilities are not needed by any claim). -/
structure GameMap where
  MAP_SIZE : Int
  MAX_TRAPDOOR_DIST_FROM_CENTER : Int
  NUM_TRAPDOORS_PER_TEAM : Int
  MAX_TURDS : Int
  CORNER_REWARD : Int
  TRAPDOOR_PENALTY : Int
deriving DecidableEq, Repr

/-- The concrete constants set in `GameMap.__init__`. -/
def game_map0 : GameMap :=
  { MAP_SIZE := 8
    MAX_TRAPDOOR_DIST_FROM_CENTER := 2
    NUM_TRAPDOORS_PER_TEAM := 1
    MAX_TURDS := 5
    CORNER_REWARD := 3
    TRAPDOOR_PENALTY := -4 }

/-- `game.chicken.Chicken` after `start` has been called (the engine always
calls `start` on both chickens before any claim-relevant operation). -/
structure Chicken where
  turds_left : Int
  eggs_laid : Int
  loc : Loc
  spawn : Loc
  even_chicken : Int
deriving DecidableEq, Repr

/-- `Chicken.increment_eggs_laid`. -/
def increment_eggs_laid (c : Chicken) (eggs : Int) : Chicken :=
  { c with eggs_laid := c.eggs_laid + eggs }

/-- `Chicken.reset_location`. -/
def reset_location (c : Chicken) : Chicken :=
  { c with loc := c.spawn }

/-- `Chicken.decrement_turds`. -/
def decrement_turds (c : Chicken) : Chicken :=
  { c with turds_left := c.turds_left - 1 }

/-- `Chicken.apply_dir` (via `get_next_loc` on the current location). -/
def apply_dir (c : Chicken) (dir : Direction) : Chicken :=
  { c with loc := loc_after_direction c.loc dir }

/-- `Chicken.is_player_a`. -/
def chicken_is_player_a (c : Chicken) : Bool :=
  c.even_chicken = 0

/-- `game.board.Board`.  The optional `History` recorder is not modelled:
it is written to but never read back by any engine logic a claim touches. -/
structure Board where
  game_map : GameMap
  eggs_player : Finset Loc
  eggs_enemy : Finset Loc
  turds_player : Finset Loc
  turds_enemy : Finset Loc
  chicken_player : Chicken
  chicken_enemy : Chicken
  found_trapdoors : Finset Loc
  turn_count : Int
  MAX_TURNS : Int
  turns_left_player : Int
  turns_left_enemy : Int
  winner : Option Result
  time_to_play : Rat
  player_time : Rat
  enemy_time : Rat
  win_reason : Option WinReason
  chicken_blocked : Bool
  is_as_turn : Bool
deriving DecidableEq

/-- The 4 x 3 iteration order of `for dir in Direction: for move_type in MoveType`
used by `Board.get_valid_moves`. -/
def all_moves : List (Direction × MoveType) :=
  [(.up, .plain), (.up, .egg), (.up, .turd),
   (.right, .plain), (.right, .egg), (.right, .turd),
   (.down, .plain), (.down, .egg), (.down, .turd),
   (.left, .plain), (.left, .egg), (.left, .turd)]

/-- The iteration order of `for direction in Direction` used inside
`Board.is_valid_move` for the opposing-turd adjacency scan. -/
def directions : List Direction := [.up, .right, .down, .left]

/-- `Board.is_valid_move`. -/
def is_valid_move (b : Board) (dir : Direction) (move_type : MoveType)
    (enemy : Bool) : Bool :=
  let c := if enemy then b.chicken_enemy else b.chicken_player
  let opposing_loc := if enemy then b.chicken_player.loc else b.chicken_enemy.loc
  if move_type = .turd ∧ c.turds_left ≤ 0 then false
  else
    let test_loc := c.loc
    if move_type = .egg ∧ (test_loc.1 + test_loc.2) % 2 ≠ c.even_chicken then false
    else
      let new_loc := loc_after_direction test_loc dir
      if new_loc = opposing_loc then false
      else if new_loc.1 < 0 ∨ new_loc.2 < 0 ∨ new_loc.1 ≥ b.game_map.MAP_SIZE ∨
          new_loc.2 ≥ b.game_map.MAP_SIZE then false
      else if new_loc ∈ (if enemy then b.eggs_player else b.eggs_enemy) then false
      else if directions.any (fun d2 =>
          decide (loc_after_direction new_loc d2 ∈
            (if enemy then b.turds_player else b.turds_enemy))) then false
      else if move_type = .plain then true
      else if test_loc ∈ (if enemy then b.eggs_enemy else b.eggs_player) ∨
          test_loc ∈ (if enemy then b.turds_enemy else b.turds_player) then false
      else if move_type = .egg then true
      else if manhattan_distance test_loc opposing_loc < 2 then false
      else true

/-- `Board.get_valid_moves`. -/
def get_valid_moves (b : Board) (enemy : Bool) : List (Direction × MoveType) :=
  all_moves.filter (fun p => is_valid_move b p.1 p.2 enemy)

/-- `Board.has_moves_left`. -/
def has_moves_left (b : Board) (enemy : Bool) : Bool :=
  decide (0 < (get_valid_moves b enemy).length)

/-- `Board.set_winner`. -/
def set_winner (b : Board) (result : Result) (reason : WinReason) : Board :=
  { b with winner := some result, win_reason := some reason }

/-- `Board.is_game_over`. -/
def is_game_over (b : Board) : Bool :=
  b.winner.isSome

/-- `Board.check_win` (the engine always calls it with the default
`timeout_bounds = 0.5`). -/
def check_win (b : Board) (timeout_bounds : Rat) : Board :=
  if b.player_time ≤ 0 then
    if b.enemy_time ≤ timeout_bounds then set_winner b .tie .timeout
    else set_winner b .enemy .timeout
  else if b.enemy_time ≤ 0 then
    if b.player_time ≤ timeout_bounds then set_winner b .tie .timeout
    else set_winner b .player .timeout
  else if (b.turns_left_player = 0 ∧ b.turns_left_enemy = 0) ∨
      b.turn_count ≥ 2 * b.MAX_TURNS then
    if b.chicken_player.eggs_laid < b.chicken_enemy.eggs_laid then
      set_winner b .enemy .eggs_laid
    else if b.chicken_player.eggs_laid > b.chicken_enemy.eggs_laid then
      set_winner b .player .eggs_laid
    else set_winner b .tie .eggs_laid
  else if b.chicken_blocked then
    if b.chicken_player.eggs_laid < b.chicken_enemy.eggs_laid then
      set_winner b .enemy .blocking_end
    else if b.chicken_player.eggs_laid > b.chicken_enemy.eggs_laid then
      set_winner b .player .blocking_end
    else set_winner b .tie .blocking_end
  else b

/-- `Board.end_turn` (history recording elided; it writes to the recorder
only). -/
def end_turn (b : Board) (_move_type : MoveType) (timer : Rat) : Board :=
  let b1 := { b with
    turn_count := b.turn_count + 1
    turns_left_player := b.turns_left_player - 1
    player_time := b.player_time - timer }
  let b2 :=
    if has_moves_left b1 true = false ∧ b1.turns_left_enemy > 0 then
      { b1 with
        chicken_player := increment_eggs_laid b1.chicken_player 5
        chicken_blocked := true }
    else b1
  let b3 := check_win b2 (1 / 2)
  { b3 with is_as_turn := ! b3.is_as_turn }

/-- The mutation block of `Board.apply_move` between the validity check
and `end_turn`: lay the egg or turd at the current square, then step the
chicken in the chosen direction. -/
def move_effects (b : Board) (dir : Direction) (move_type : MoveType) : Board :=
  let my_loc := b.chicken_player.loc
  let b1 :=
    if move_type = .egg then
      let reward :=
        if (my_loc.1 = 0 ∨ my_loc.1 = b.game_map.MAP_SIZE - 1) ∧
           (my_loc.2 = 0 ∨ my_loc.2 = b.game_map.MAP_SIZE - 1) then
          b.game_map.CORNER_REWARD
        else 1
      { b with
        chicken_player := increment_eggs_laid b.chicken_player reward
        eggs_player := insert my_loc b.eggs_player }
    else if move_type = .turd then
      { b with
        chicken_player := decrement_turds b.chicken_player
        turds_player := insert my_loc b.turds_player }
    else b
  { b1 with chicken_player := apply_dir b1.chicken_player dir }

/-- `Board.apply_move`.  Returns the Python boolean together with the
post-call board (the Python method mutates `self`). -/
def apply_move (b : Board) (dir : Direction) (move_type : MoveType)
    (timer : Rat) (check_ok : Bool) : Bool × Board :=
  if check_ok = true ∧ is_valid_move b dir move_type false = false then (false, b)
  else (true, end_turn (move_effects b dir move_type) move_type timer)

/-- `Board.get_copy`.  In the pure value model a faithful field-by-field
copy is observationally the identity; the reference/aliasing content of
copying lives in the heap model further below (claim C5). -/
def get_copy (b : Board) : Board :=
  { game_map := b.game_map
    eggs_player := b.eggs_player
    eggs_enemy := b.eggs_enemy
    turds_player := b.turds_player
    turds_enemy := b.turds_enemy
    chicken_player := b.chicken_player
    chicken_enemy := b.chicken_enemy
    found_trapdoors := b.found_trapdoors
    turn_count := b.turn_count
    MAX_TURNS := b.MAX_TURNS
    turns_left_player := b.turns_left_player
    turns_left_enemy := b.turns_left_enemy
    winner := b.winner
    time_to_play := b.time_to_play
    player_time := b.player_time
    enemy_time := b.enemy_time
    win_reason := b.win_reason
    chicken_blocked := b.chicken_blocked
    is_as_turn := b.is_as_turn }

/-- `Board.forecast_move`.  The source calls
`board_copy.apply_move(dir, move_type, check_ok)`, which passes the
boolean `check_ok` positionally into `apply_move`'s third parameter
`timer` (Python coerces `True` to `1` and `False` to `0` in
`player_time -= timer`), while `apply_move`'s own `check_ok` keeps its
default `True`. -/
def forecast_move (b : Board) (dir : Direction) (move_type : MoveType)
    (check_ok : Bool) : Option Board :=
  let board_copy := get_copy b
  let r := apply_move board_copy dir move_type (if check_ok then 1 else 0) true
  if r.1 then some r.2 else none

/-- `Board.reverse_perspective`. -/
def reverse_perspective (b : Board) : Board :=
  { b with
    eggs_player := b.eggs_enemy
    eggs_enemy := b.eggs_player
    turds_player := b.turds_enemy
    turds_enemy := b.turds_player
    chicken_player := b.chicken_enemy
    chicken_enemy := b.chicken_player
    player_time := b.enemy_time
    enemy_time := b.player_time
    turns_left_player := b.turns_left_enemy
    turns_left_enemy := b.turns_left_player }

/-!
The orchestrator: `player_process.py` and `gameplay.play_game`.
-/

/-- The overloaded `moves` slot of the `(moves, timer, message)` triple
carried on a player's result queue: `None`, a move tuple, or one of the
sentinel strings `"Memory"`, `"GPU VRAM"`, `"Fail"`. -/
inductive MovesVal
  | none_v
  | tuple_v (dir : Direction) (move_type : MoveType)
  | memory_v
  | gpu_v
  | fail_v
deriving DecidableEq, Repr

/-- The overloaded first slot of a construct reply: `True`, `False`, or
the sentinel strings `"Memory"`, `"Fail"`. -/
inductive CtorVal
  | ctrue
  | cfalse
  | cmemory
  | cfail
deriving DecidableEq, Repr

/-- `limit_mb * 1024 * 1024` from `run_player_process` (1536 MB). -/
def limit_bytes : Int := 1536 * 1024 * 1024

/-- `vram_limit_bytes = 4 * 1024**3` from `run_player_process`. -/
def vram_limit_bytes : Int := 4 * 1024 * 1024 * 1024

/-- `checkMemory` raises `MemoryError` exactly when resource limiting is
on and the summed resident memory of the process tree exceeds the limit. -/
def check_memory_raises (limit_resources : Bool) (total_memory : Int) : Bool :=
  limit_resources && decide (total_memory > limit_bytes)

/-- `checkVRAM` raises `MemoryError` exactly when the GPU is in use,
resource limiting is on, and summed device memory exceeds the limit. -/
def check_vram_raises (use_gpu limit_resources : Bool) (total_vram : Int) : Bool :=
  use_gpu && (limit_resources && decide (total_vram > vram_limit_bytes))

/-- Outcome of invoking the agent's `play` (or of the surrounding
bookkeeping) inside the sandboxed process. -/
inductive PlayCall
  | ok_move (dir : Direction) (move_type : MoveType)
  | raised (msg : String)
deriving DecidableEq, Repr

/-- Outcome of invoking `module.PlayerAgent(...)` inside the sandboxed
process. -/
inductive CtorCall
  | ok
  | raised (msg : String)
deriving DecidableEq, Repr

/-- The `"play"` branch of `run_player_process`: the triple enqueued on
the result queue as a function of the agent call's outcome, the elapsed
time, and the resource usage sampled afterwards. -/
def handle_play (limit_resources use_gpu : Bool) (call : PlayCall)
    (elapsed : Rat) (total_memory total_vram : Int) : MovesVal × Rat × String :=
  match call with
  | .raised msg => (.none_v, -1, msg)
  | .ok_move dir move_type =>
    if check_memory_raises limit_resources total_memory then
      (.memory_v, -1, "MemoryError")
    else if check_vram_raises use_gpu limit_resources total_vram then
      (.gpu_v, -1, "MemoryError")
    else (.tuple_v dir move_type, elapsed, "")

/-- The `"construct"` branch of `run_player_process`. -/
def handle_construct (limit_resources : Bool) (call : CtorCall)
    (elapsed : Rat) (total_memory : Int) : CtorVal × Rat × String :=
  match call with
  | .raised msg => (.cfalse, -1, msg)
  | .ok =>
    if check_memory_raises limit_resources total_memory then
      (.cmemory, -1, "MemoryError")
    else (.ctrue, elapsed, "")

/-- The orchestrator-side deadline of `return_queue.get(block=True,
timeout=timeout + extra_ret_time)`: a reply whose arrival time exceeds
`timeout + extra_ret_time` is never received (the blocking get raises),
even if the child eventually sends it. -/
def channel_receive (send : Option (MovesVal × Rat × String)) (arrival : Rat)
    (timeout extra_ret_time : Rat) : Option (MovesVal × Rat × String) :=
  match send with
  | some r => if arrival ≤ timeout + extra_ret_time then some r else none
  | none => none

/-- `PlayerProcess.run_timed_play`.  `reply = none` is the path where the
blocking queue get times out and the bare `except` returns
`(None, -1, "Timeout")`; a `"Fail"` sentinel raises `RuntimeError`,
caught by the same bare `except`. -/
def run_timed_play (reply : Option (MovesVal × Rat × String)) (timeout : Rat) :
    MovesVal × Rat × String :=
  match reply with
  | none => (.none_v, -1, "Timeout")
  | some (m, t, msg) =>
    if m = .none_v then (.none_v, -1, msg)
    else if m = .memory_v ∧ t = -1 then (.none_v, -2, msg)
    else if m = .fail_v ∧ t = -1 then (.none_v, -1, "Timeout")
    else if t < timeout then (m, t, msg)
    else (.none_v, timeout, "Timeout")

/-- `PlayerProcess.run_timed_constructor` (result flag and message). -/
def run_timed_constructor (reply : Option (CtorVal × Rat × String))
    (timeout : Rat) : Bool × String :=
  match reply with
  | none => (false, "Timeout")
  | some (v, t, msg) =>
    if v = .cfalse then (false, msg)
    else if v = .cmemory ∧ t = -1 then (false, msg)
    else if v = .cfail ∧ t = -1 then (false, "Timeout")
    else (decide (t < timeout), msg)

/-- `extra_ret_time = 5` in `play_game`. -/
def extra_ret_time : Rat := 5

/-- `is_as_turn = not is_as_turn`, the post-fault flip in `play_game`. -/
def flip_turn (b : Board) : Board :=
  { b with is_as_turn := ! b.is_as_turn }

/-- Lines 384-398 of `play_game`: after a move reply was processed, check
the mover's (possibly unchanged) location against the hidden trapdoors;
on a hit, revert the mover to its spawn, award the opponent
`-1 * TRAPDOOR_PENALTY` eggs, and reveal the trapdoor. -/
def trapdoor_step (trapdoors : Finset Loc) (b : Board) : Board :=
  let new_location := b.chicken_player.loc
  if new_location ∈ trapdoors then
    let ba := { b with chicken_player := reset_location b.chicken_player }
    let bb := { ba with chicken_enemy :=
      increment_eggs_laid ba.chicken_enemy (-1 * ba.game_map.TRAPDOOR_PENALTY) }
    { bb with found_trapdoors := insert new_location bb.found_trapdoors }
  else b

/-- Lines 363-398 of `play_game`: the fault-classification block, guarded
on the winner still being unset.  Returns `none` when the orchestrator
itself would crash (unpacking a sentinel string into `dir, move_type`). -/
def classify_phase (trapdoors : Finset Loc) (m : MovesVal) (timer : Rat)
    (b : Board) : Option Board :=
  if b.winner ≠ none then some b
  else
    match m with
    | .none_v =>
      let reason : WinReason :=
        if timer = -1 then .code_crash
        else if timer = -2 then .memory_error
        else .timeout
      some (flip_turn (set_winner b .enemy reason))
    | .tuple_v dir move_type =>
      let r := apply_move b dir move_type timer true
      let b2 :=
        if r.1 = false then flip_turn (set_winner r.2 .enemy .invalid_turn)
        else if r.2.player_time ≤ 0 then set_winner r.2 .enemy .timeout
        else r.2
      some (trapdoor_step trapdoors b2)
    | _ => none

/-- `if not game_board.is_game_over(): game_board.reverse_perspective()`. -/
def post_phase (b : Board) : Board :=
  if is_game_over b = false then reverse_perspective b else b

/-- Per-turn oracle: the triple the child eventually enqueues for this
turn (if any) and the wall-clock moment it arrives on the queue. -/
structure TurnOracle where
  send : Option (MovesVal × Rat × String)
  arrival : Rat
deriving DecidableEq

/-- One iteration of the `play_game` loop body for the active side,
without the scheduler events: issue the Play with the active side's
remaining budget, run the reply through `run_timed_play`, classify,
then flip perspective if the game is not over. -/
def step_turn (trapdoors : Finset Loc) (o : TurnOracle) (b : Board) :
    Option Board :=
  let r := run_timed_play
    (channel_receive o.send o.arrival b.player_time extra_ret_time)
    b.player_time
  (classify_phase trapdoors r.1 r.2.1 b).map post_phase

/-- Sides of the match. -/
inductive Side
  | a
  | b
deriving DecidableEq, Repr

/-- The opposite side. -/
def other : Side → Side
  | .a => .b
  | .b => .a

/-- Scheduler-relevant events the orchestrator emits, in program order:
process start, `restart_process_and_children` (SIGCONT sweep),
enqueueing a `play`/`construct` command, and
`pause_process_and_children` (SIGSTOP sweep, escalating to SIGKILL). -/
inductive Ev
  | start_ev (s : Side)
  | restart_ev (s : Side)
  | play_cmd (s : Side)
  | construct_cmd (s : Side)
  | pause_ev (s : Side)
deriving DecidableEq, Repr

/-- Whether each side's process tree is in a runnable (not
SIGSTOP-suspended, not killed) state. -/
structure SchedState where
  a_running : Bool
  b_running : Bool
deriving DecidableEq, Repr

/-- Read one side's runnable flag. -/
def side_running (st : SchedState) : Side → Bool
  | .a => st.a_running
  | .b => st.b_running

/-- Write one side's runnable flag. -/
def set_running (st : SchedState) (s : Side) (v : Bool) : SchedState :=
  match s with
  | .a => { st with a_running := v }
  | .b => { st with b_running := v }

/-- Effect of one orchestrator event on the process trees.  Both
`pause_process_and_children` and `restart_process_and_children` begin
with `if self.limit_resources:` and do nothing otherwise; a pause whose
poll budget is exhausted escalates to SIGKILL, which also leaves the
tree non-runnable. -/
def apply_ev (limit_resources : Bool) (st : SchedState) (e : Ev) : SchedState :=
  match e with
  | .start_ev s => set_running st s true
  | .restart_ev s => if limit_resources then set_running st s true else st
  | .pause_ev s => if limit_resources then set_running st s false else st
  | .play_cmd _ => st
  | .construct_cmd _ => st

/-- Process-tree state after a sequence of events, starting from neither
process having been spawned. -/
def state_at (limit_resources : Bool) (evs : List Ev) : SchedState :=
  evs.foldl (apply_ev limit_resources) ⟨false, false⟩

/-- How many process trees are runnable. -/
def running_count (st : SchedState) : Nat :=
  (if st.a_running then 1 else 0) + (if st.b_running then 1 else 0)

/-- Events of one loop iteration for the active side: resume the tree,
enqueue the Play, suspend the tree once the (possibly synthesized)
result is back.  `pause` is reached on every path because
`run_timed_play` catches every exception internally. -/
def turn_trace (s : Side) : List Ev :=
  [.restart_ev s, .play_cmd s, .pause_ev s]

/-- The `while not game_board.is_game_over()` loop of `play_game`, fueled
by the list of per-turn oracles.  Returns the final board (`none` when
fuel runs out before termination or the orchestrator crashes) and the
emitted scheduler-event trace. -/
def match_loop (trapdoors : Finset Loc) (os : List TurnOracle) (b : Board) :
    Option Board × List Ev :=
  match os with
  | [] => (if is_game_over b then some b else none, [])
  | o :: rest =>
    if is_game_over b then (some b, [])
    else
      let s : Side := if b.is_as_turn then .a else .b
      match step_turn trapdoors o b with
      | none => (none, turn_trace s)
      | some b2 =>
        let r := match_loop trapdoors rest b2
        (r.1, turn_trace s ++ r.2)

/-- The whole-match environment: configuration plus every oracle input
`play_game` consumes. -/
structure MatchEnv where
  limit_resources : Bool
  ready_a : Bool
  ready_b : Bool
  ctor_reply_a : Option (CtorVal × Rat × String)
  ctor_reply_b : Option (CtorVal × Rat × String)
  turn_oracles : List TurnOracle
  trapdoors : Finset Loc
  spawn_a : Loc
  spawn_b : Loc

/-- `init_timeout`: 10 with resource limiting, 20 without. -/
def init_timeout (env : MatchEnv) : Rat :=
  if env.limit_resources then 10 else 20

/-- `success_a` after the construction phase: the readiness flag,
overwritten by the timed constructor's verdict when both readiness
handshakes succeeded (the constructor block is guarded on
`success_a and success_b`). -/
def success_a (env : MatchEnv) : Bool :=
  if env.ready_a && env.ready_b then
    (run_timed_constructor env.ctor_reply_a (init_timeout env)).1
  else env.ready_a

/-- `success_b`, symmetric to `success_a`. -/
def success_b (env : MatchEnv) : Bool :=
  if env.ready_a && env.ready_b then
    (run_timed_constructor env.ctor_reply_b (init_timeout env)).1
  else env.ready_b

/-- Scheduler events of one side's readiness handshake: the pause is
skipped when the queue get raises (readiness failure). -/
def ready_trace (s : Side) (ready : Bool) : List Ev :=
  if ready then [.start_ev s, .pause_ev s] else [.start_ev s]

/-- Scheduler events of one side's timed-constructor run. -/
def ctor_trace (s : Side) : List Ev :=
  [.restart_ev s, .construct_cmd s, .pause_ev s]

/-- Scheduler events of the whole construction phase of `play_game`. -/
def init_trace (env : MatchEnv) : List Ev :=
  ready_trace .a env.ready_a ++ ready_trace .b env.ready_b ++
    (if env.ready_a && env.ready_b then ctor_trace .a ++ ctor_trace .b else [])

/-- The board built by `play_game` before the processes start:
`play_time = 360`, both chickens started on their spawns with parities
0 and 1. -/
def initial_board (env : MatchEnv) : Board :=
  { game_map := game_map0
    eggs_player := ∅
    eggs_enemy := ∅
    turds_player := ∅
    turds_enemy := ∅
    chicken_player :=
      { turds_left := game_map0.MAX_TURDS, eggs_laid := 0,
        loc := env.spawn_a, spawn := env.spawn_a, even_chicken := 0 }
    chicken_enemy :=
      { turds_left := game_map0.MAX_TURDS, eggs_laid := 0,
        loc := env.spawn_b, spawn := env.spawn_b, even_chicken := 1 }
    found_trapdoors := ∅
    turn_count := 0
    MAX_TURNS := 40
    turns_left_player := 40
    turns_left_enemy := 40
    winner := none
    time_to_play := 360
    player_time := 360
    enemy_time := 360
    win_reason := none
    chicken_blocked := false
    is_as_turn := true }

/-- `game.enums.Result` and `game.enums.ResultArbiter` are `IntEnum`s
with identical numbering; the final `set_winner(winner, ...)` stores a
`ResultArbiter` into the board's winner slot through that punning. -/
def arb_to_result : ResultArbiter → Result
  | .player_a => .player
  | .player_b => .enemy
  | .tie => .tie
  | .error => .error

/-- Lines 409-421 of `play_game`: translate the perspective-relative
winner into fixed identities via the current perspective's chicken
parity, then `set_winner(winner, game_board.win_reason)`. -/
def finalize (b : Board) : Board × ResultArbiter :=
  let current_is_a := chicken_is_player_a b.chicken_player
  let w : ResultArbiter :=
    match b.winner with
    | some .player => if current_is_a then .player_a else .player_b
    | some .enemy => if current_is_a then .player_b else .player_a
    | _ => .tie
  ({ b with winner := some (arb_to_result w) }, w)

/-- `play_game`: construction phase, early `FAILED_INIT` exits, the match
loop, and the final identity translation.  Returns the final board
paired with the fixed-identity winner, plus the scheduler-event trace. -/
def play_game (env : MatchEnv) : Option (Board × ResultArbiter) × List Ev :=
  let b0 := initial_board env
  let itrace := init_trace env
  let sa := success_a env
  let sb := success_b env
  if sa = false ∧ sb = false then
    (some (set_winner b0 (arb_to_result .tie) .failed_init, .tie), itrace)
  else if sa = false then
    (some (set_winner b0 (arb_to_result .player_b) .failed_init, .player_b), itrace)
  else if sb = false then
    (some (set_winner b0 (arb_to_result .player_a) .failed_init, .player_a), itrace)
  else
    let r := match_loop env.trapdoors env.turn_oracles b0
    match r.1 with
    | none => (none, itrace ++ r.2)
    | some bf =>
      let fr := finalize bf
      (some (fr.1, fr.2), itrace ++ r.2)

/-- The PLAYING-phase portion of the scheduler-event trace. -/
def loop_trace (env : MatchEnv) : List Ev :=
  (match_loop env.trapdoors env.turn_oracles (initial_board env)).2

/-- Whether an event is the issuing of a Play command. -/
def is_play_ev : Ev → Bool
  | .play_cmd _ => true
  | _ => false

/-!
Heap model for `Board.get_copy` (claim C5).  Python boards hold
references to mutable `set` and `Chicken` objects; only those can alias.
Scalar attributes (`turn_count`, the clocks, `winner`, ...) are rebound
per object, so reassigning them on one board object can never be seen
through another.  We model a heap of set- and chicken-objects addressed
by naturals, board objects as records of addresses plus scalar values,
and `get_copy` as the source writes it: a fresh allocation filled with
`.copy()` / `get_copy()` of each referenced object, scalars copied by
value. -/

/-- The heap: set objects, chicken objects, and the next fresh address. -/
structure Store where
  sets : Nat → Finset Loc
  chickens : Nat → Chicken
  next_addr : Nat

/-- Allocate a fresh set object holding `v`. -/
def Store.alloc_set (σ : Store) (v : Finset Loc) : Nat × Store :=
  (σ.next_addr,
    { σ with sets := Function.update σ.sets σ.next_addr v,
             next_addr := σ.next_addr + 1 })

/-- Allocate a fresh chicken object holding `c`. -/
def Store.alloc_chicken (σ : Store) (c : Chicken) : Nat × Store :=
  (σ.next_addr,
    { σ with chickens := Function.update σ.chickens σ.next_addr c,
             next_addr := σ.next_addr + 1 })

/-- In-place mutation of a set object (e.g. `board.eggs_player.add(...)`
inside the sandbox). -/
def write_set (σ : Store) (a : Nat) (v : Finset Loc) : Store :=
  { σ with sets := Function.update σ.sets a v }

/-- In-place mutation of a chicken object (e.g. `board.chicken_player.loc = ...`
inside the sandbox). -/
def write_chicken (σ : Store) (a : Nat) (c : Chicken) : Store :=
  { σ with chickens := Function.update σ.chickens a c }

/-- A Python `Board` object: addresses of its seven mutable sub-objects
plus its immediate scalar attributes. -/
structure PyBoard where
  eggs_player_ref : Nat
  eggs_enemy_ref : Nat
  turds_player_ref : Nat
  turds_enemy_ref : Nat
  found_trapdoors_ref : Nat
  chicken_player_ref : Nat
  chicken_enemy_ref : Nat
  turn_count : Int
  max_turns : Int
  turns_left_player : Int
  turns_left_enemy : Int
  winner : Option Result
  time_to_play : Rat
  player_time : Rat
  enemy_time : Rat
  win_reason : Option WinReason
  chicken_blocked : Bool
  is_as_turn : Bool

/-- All addresses a board references are live. -/
def wf_board (b : PyBoard) (σ : Store) : Prop :=
  b.eggs_player_ref < σ.next_addr ∧ b.eggs_enemy_ref < σ.next_addr ∧
  b.turds_player_ref < σ.next_addr ∧ b.turds_enemy_ref < σ.next_addr ∧
  b.found_trapdoors_ref < σ.next_addr ∧ b.chicken_player_ref < σ.next_addr ∧
  b.chicken_enemy_ref < σ.next_addr

/-- `Board.get_copy` over the heap: in source order, `.copy()` each of the
five sets, `get_copy()` each chicken, and copy every scalar by value. -/
def py_get_copy (b : PyBoard) (σ : Store) : PyBoard × Store :=
  let r1 := σ.alloc_set (σ.sets b.eggs_player_ref)
  let r2 := r1.2.alloc_set (σ.sets b.eggs_enemy_ref)
  let r3 := r2.2.alloc_set (σ.sets b.turds_player_ref)
  let r4 := r3.2.alloc_set (σ.sets b.turds_enemy_ref)
  let r5 := r4.2.alloc_set (σ.sets b.found_trapdoors_ref)
  let r6 := r5.2.alloc_chicken (σ.chickens b.chicken_player_ref)
  let r7 := r6.2.alloc_chicken (σ.chickens b.chicken_enemy_ref)
  ({ b with
      eggs_player_ref := r1.1
      eggs_enemy_ref := r2.1
      turds_player_ref := r3.1
      turds_enemy_ref := r4.1
      found_trapdoors_ref := r5.1
      chicken_player_ref := r6.1
      chicken_enemy_ref := r7.1 },
   r7.2)

/-- Everything observable about a board object through a given heap. -/
def observe_board (b : PyBoard) (σ : Store) :
    (Finset Loc × Finset Loc × Finset Loc × Finset Loc × Finset Loc) ×
    (Chicken × Chicken) ×
    (Int × Int × Int × Int × Option Result × Rat × Rat × Rat ×
      Option WinReason × Bool × Bool) :=
  ((σ.sets b.eggs_player_ref, σ.sets b.eggs_enemy_ref,
    σ.sets b.turds_player_ref, σ.sets b.turds_enemy_ref,
    σ.sets b.found_trapdoors_ref),
   (σ.chickens b.chicken_player_ref, σ.chickens b.chicken_enemy_ref),
   (b.turn_count, b.max_turns, b.turns_left_player, b.turns_left_enemy,
    b.winner, b.time_to_play, b.player_time, b.enemy_time,
    b.win_reason, b.chicken_blocked, b.is_as_turn))

/-- The set addresses a board object references. -/
def set_refs (b : PyBoard) : List Nat :=
  [b.eggs_player_ref, b.eggs_enemy_ref, b.turds_player_ref,
   b.turds_enemy_ref, b.found_trapdoors_ref]

/-- The chicken addresses a board object references. -/
def chicken_refs (b : PyBoard) : List Nat :=
  [b.chicken_player_ref, b.chicken_enemy_ref]

/-!
Helper lemmas (field-preservation facts about the embedded operations).
-/

lemma check_win_player_time (b : Board) (tb : Rat) :
    (check_win b tb).player_time = b.player_time := by
  unfold check_win set_winner; split_ifs <;> rfl

lemma check_win_enemy_time (b : Board) (tb : Rat) :
    (check_win b tb).enemy_time = b.enemy_time := by
  unfold check_win set_winner; split_ifs <;> rfl

lemma check_win_chicken_player (b : Board) (tb : Rat) :
    (check_win b tb).chicken_player = b.chicken_player := by
  unfold check_win set_winner; split_ifs <;> rfl

lemma check_win_chicken_enemy (b : Board) (tb : Rat) :
    (check_win b tb).chicken_enemy = b.chicken_enemy := by
  unfold check_win set_winner; split_ifs <;> rfl

lemma check_win_game_map (b : Board) (tb : Rat) :
    (check_win b tb).game_map = b.game_map := by
  unfold check_win set_winner; split_ifs <;> rfl

lemma check_win_found_trapdoors (b : Board) (tb : Rat) :
    (check_win b tb).found_trapdoors = b.found_trapdoors := by
  unfold check_win set_winner; split_ifs <;> rfl

lemma check_win_reason_nonpos (b : Board) (tb : Rat) (h : b.player_time ≤ 0) :
    (check_win b tb).win_reason = some .timeout := by
  unfold check_win set_winner
  rw [if_pos h]
  split_ifs <;> rfl

lemma end_turn_player_time (b : Board) (mt : MoveType) (t : Rat) :
    (end_turn b mt t).player_time = b.player_time - t := by
  simp only [end_turn]
  split_ifs <;> rw [check_win_player_time]

lemma end_turn_enemy_time (b : Board) (mt : MoveType) (t : Rat) :
    (end_turn b mt t).enemy_time = b.enemy_time := by
  simp only [end_turn]
  split_ifs <;> rw [check_win_enemy_time]

lemma end_turn_game_map (b : Board) (mt : MoveType) (t : Rat) :
    (end_turn b mt t).game_map = b.game_map := by
  simp only [end_turn]
  split_ifs <;> rw [check_win_game_map]

lemma end_turn_reason_nonpos (b : Board) (mt : MoveType) (t : Rat)
    (h : b.player_time - t ≤ 0) : (end_turn b mt t).win_reason = some .timeout := by
  simp only [end_turn]
  split_ifs <;> exact check_win_reason_nonpos _ _ h

lemma apply_move_true (b : Board) (dir : Direction) (move_type : MoveType)
    (timer : Rat) (h : (apply_move b dir move_type timer true).1 = true) :
    apply_move b dir move_type timer true =
      (true, end_turn (move_effects b dir move_type) move_type timer) := by
  by_cases hc : true = true ∧ is_valid_move b dir move_type false = false
  · rw [apply_move, if_pos hc] at h
    simp at h
  · rw [apply_move, if_neg hc]

lemma move_effects_game_map (b : Board) (dir : Direction) (move_type : MoveType) :
    (move_effects b dir move_type).game_map = b.game_map := by
  simp only [move_effects]; split_ifs <;> rfl

lemma move_effects_player_time (b : Board) (dir : Direction) (move_type : MoveType) :
    (move_effects b dir move_type).player_time = b.player_time := by
  simp only [move_effects]; split_ifs <;> rfl

lemma move_effects_win_reason (b : Board) (dir : Direction) (move_type : MoveType) :
    (move_effects b dir move_type).win_reason = b.win_reason := by
  simp only [move_effects]; split_ifs <;> rfl

lemma move_effects_even (b : Board) (dir : Direction) (move_type : MoveType) :
    (move_effects b dir move_type).chicken_player.even_chicken =
      b.chicken_player.even_chicken := by
  simp only [move_effects, increment_eggs_laid, decrement_turds, apply_dir]
  split_ifs <;> rfl

lemma trapdoor_step_winner (tds : Finset Loc) (b : Board) :
    (trapdoor_step tds b).winner = b.winner := by
  simp only [trapdoor_step]; split_ifs <;> rfl

lemma trapdoor_step_win_reason (tds : Finset Loc) (b : Board) :
    (trapdoor_step tds b).win_reason = b.win_reason := by
  simp only [trapdoor_step]; split_ifs <;> rfl

lemma trapdoor_step_even (tds : Finset Loc) (b : Board) :
    (trapdoor_step tds b).chicken_player.even_chicken =
      b.chicken_player.even_chicken := by
  simp only [trapdoor_step, reset_location]; split_ifs <;> rfl

lemma reverse_perspective_win_reason (b : Board) :
    (reverse_perspective b).win_reason = b.win_reason := rfl

lemma post_phase_win_reason (b : Board) :
    (post_phase b).win_reason = b.win_reason := by
  simp only [post_phase]; split_ifs <;> rfl

/-- A shared concrete environment for tests: both sides ready, both
constructors succeed quickly, spawns at (0,2) and (7,2). -/
def test_env (lr : Bool) (os : List TurnOracle) (tds : Finset Loc) : MatchEnv :=
  { limit_resources := lr
    ready_a := true
    ready_b := true
    ctor_reply_a := some (.ctrue, 1, "")
    ctor_reply_b := some (.ctrue, 1, "")
    turn_oracles := os
    trapdoors := tds
    spawn_a := (0, 2)
    spawn_b := (7, 2) }

/-- A concrete mid-match board: the freshly initialized board of
`test_env`. -/
def test_board : Board := initial_board (test_env false [] ∅)

/-!
Claim C3: resource-overage overrides otherwise-successful results.
-/

/-- C3: for Play and Construct commands whose agent call succeeded, if
resource limiting is on and the summed resident memory of the process
tree exceeds the ceiling, the triple enqueued for the arbiter is the
`"Memory"` fault with elapsed `-1` — never the success payload; a
success payload is enqueued only when the memory check passes. -/
theorem c3_memory_fault_overrides_success :
    (∀ (use_gpu : Bool) (dir : Direction) (move_type : MoveType) (e : Rat)
       (mem vram : Int), mem > limit_bytes →
        handle_play true use_gpu (.ok_move dir move_type) e mem vram =
          (.memory_v, -1, "MemoryError"))
    ∧ (∀ (lr use_gpu : Bool) (call : PlayCall) (e : Rat) (mem vram : Int)
         (dir : Direction) (move_type : MoveType) (t : Rat) (msg : String),
        handle_play lr use_gpu call e mem vram = (.tuple_v dir move_type, t, msg) →
        ¬(lr = true ∧ mem > limit_bytes))
    ∧ (∀ (e : Rat) (mem : Int), mem > limit_bytes →
        handle_construct true .ok e mem = (.cmemory, -1, "MemoryError"))
    ∧ (∀ (lr : Bool) (call : CtorCall) (e : Rat) (mem : Int) (t : Rat)
         (msg : String),
        handle_construct lr call e mem = (.ctrue, t, msg) →
        ¬(lr = true ∧ mem > limit_bytes)) := by
  refine ⟨?_, ?_, ?_, ?_⟩
  · intro use_gpu dir move_type e mem vram h
    simp [handle_play, check_memory_raises, h]
  · intro lr use_gpu call e mem vram dir move_type t msg h
    rintro ⟨rfl, hm⟩
    cases call with
    | raised m => simp [handle_play] at h
    | ok_move d2 m2 =>
      simp [handle_play, check_memory_raises, hm] at h
  · intro e mem h
    simp [handle_construct, check_memory_raises, h]
  · intro lr call e mem t msg h
    rintro ⟨rfl, hm⟩
    cases call with
    | raised m => simp [handle_construct] at h
    | ok => simp [handle_construct, check_memory_raises, hm] at h

/-- C3 witness: a concrete over-budget Play is turned into the memory
fault. -/
theorem c3_memory_fault_witness :
    limit_bytes + 1 > limit_bytes
    ∧ handle_play true false (.ok_move .up .plain) 1 (limit_bytes + 1) 0 =
        (.memory_v, -1, "MemoryError") :=
  ⟨by decide,
   c3_memory_fault_overrides_success.1 false .up .plain 1 (limit_bytes + 1) 0
     (by decide)⟩

/-!
Claim C10: `forecast_move` versus copy-then-apply.
-/

/-- C10 (code bug evaluation): on a concrete board and a valid move,
`forecast_move` does not return a copy with the move applied — the
source passes its `check_ok` argument positionally into `apply_move`'s
`timer` parameter, so the forecast board's clock is one second lower
than a copy with the move applied (`timer` defaulting to 0), and the
documented ability of `check_ok=False` to skip validation is lost. -/
theorem c10_forecast_mismatch :
    is_valid_move test_board .up .plain false = true
    ∧ (forecast_move test_board .up .plain true).map Board.player_time =
        some 359
    ∧ (apply_move (get_copy test_board) .up .plain 0 true).2.player_time = 360
    ∧ forecast_move test_board .up .plain true ≠
        some (apply_move (get_copy test_board) .up .plain 0 true).2 := by
  decide

/-!
Claim C2: late or absent replies and the Timeout attribution.
-/

/-- A Play turn whose reply is only sent at t = 400, past the
360-second budget plus the 5-second grace interval. -/
def c2_env_late : MatchEnv :=
  test_env true [{ send := some (.tuple_v .up .plain, 30, ""), arrival := 400 }] ∅

/-- A Play turn whose reply arrives in time but reports an elapsed time
equal to the full budget. -/
def c2_env_slow : MatchEnv :=
  test_env true [{ send := some (.tuple_v .up .plain, 360, ""), arrival := 100 }] ∅

/-- C2 (code bug evaluation): when no reply arrives within
budget + grace, `run_timed_play`'s exception path returns
`(None, -1, "Timeout")` and `play_game` maps `timer == -1` to
`CODE_CRASH`, so the match ends with reason `CODE_CRASH` — not the
`Timeout` the claim (and the code's own diagnostic string) promise.
The sibling path the claim also covers — a reply that arrives in time
but whose reported elapsed time is at least the budget — is discarded
and does end the match with `Timeout`; in both runs the opponent's
budget is untouched at 360. -/
theorem c2_deadline_miss_is_code_crash :
    ¬ ((400 : Rat) ≤ 360 + extra_ret_time)
    ∧ (play_game c2_env_late).1.map
        (fun p => (p.1.win_reason, p.2, p.1.enemy_time)) =
        some (some .code_crash, .player_b, 360)
    ∧ (play_game c2_env_slow).1.map
        (fun p => (p.1.win_reason, p.2, p.1.enemy_time)) =
        some (some .timeout, .player_b, 360) := by
  decide

/-!
Claim C7: a rejected move terminates the match with `INVALID_TURN`.
-/

/-- C7: during PLAYING, when the active side returns a move that
`apply_move` rejects, the classification step sets winner `ENEMY` with
reason `INVALID_TURN`, the match is over (so the loop issues no further
Play — no retry), and the final translation attributes the win to the
opposing side. -/
theorem c7_invalid_move_ends_match (trapdoors : Finset Loc) (b : Board)
    (dir : Direction) (move_type : MoveType) (timer : Rat)
    (hw : b.winner = none)
    (hv : is_valid_move b dir move_type false = false) :
    ∃ b2, classify_phase trapdoors (.tuple_v dir move_type) timer b = some b2
      ∧ b2.win_reason = some .invalid_turn
      ∧ b2.winner = some .enemy
      ∧ is_game_over b2 = true
      ∧ (∀ os, match_loop trapdoors os b2 = (some b2, []))
      ∧ (finalize b2).2 =
        (if chicken_is_player_a b.chicken_player then .player_b else .player_a) := by
  have happ : apply_move b dir move_type timer true = (false, b) := by
    rw [apply_move, if_pos ⟨rfl, hv⟩]
  refine ⟨trapdoor_step trapdoors (flip_turn (set_winner b .enemy .invalid_turn)),
    ?_, ?_, ?_, ?_, ?_, ?_⟩
  · simp [classify_phase, hw, happ, flip_turn, set_winner]
  · rw [trapdoor_step_win_reason]; rfl
  · rw [trapdoor_step_winner]; rfl
  · rw [is_game_over, trapdoor_step_winner]; rfl
  · intro os
    have hov : is_game_over
        (trapdoor_step trapdoors (flip_turn (set_winner b .enemy .invalid_turn))) = true := by
      rw [is_game_over, trapdoor_step_winner]; rfl
    cases os <;> simp [match_loop, hov]
  · have hwin : (trapdoor_step trapdoors
        (flip_turn (set_winner b .enemy .invalid_turn))).winner = some .enemy := by
      rw [trapdoor_step_winner]; rfl
    have heven : (trapdoor_step trapdoors
        (flip_turn (set_winner b .enemy .invalid_turn))).chicken_player.even_chicken =
        b.chicken_player.even_chicken := by
      rw [trapdoor_step_even]; rfl
    simp [finalize, hwin, chicken_is_player_a, heven]

/-- C7 witness: moving left off the board from (0, 2) is rejected and
ends the concrete match with `INVALID_TURN` for the opponent. -/
theorem c7_invalid_move_witness :
    test_board.winner = none
    ∧ is_valid_move test_board .left .plain false = false
    ∧ ∃ b2, classify_phase ∅ (.tuple_v .left .plain) 1 test_board = some b2
        ∧ b2.win_reason = some .invalid_turn
        ∧ b2.winner = some .enemy
        ∧ is_game_over b2 = true
        ∧ (∀ os, match_loop ∅ os b2 = (some b2, []))
        ∧ (finalize b2).2 =
          (if chicken_is_player_a test_board.chicken_player then .player_b
           else .player_a) :=
  ⟨by decide, by decide,
   c7_invalid_move_ends_match ∅ test_board .left .plain 1 (by decide) (by decide)⟩

/-!
Claim C8: trapdoor consequences of a successfully applied move.
-/

/-- C8: after a successfully applied move, if the mover's new location
is a trapdoor coordinate, the mover is reverted to its spawn, the
coordinate is added to `found_trapdoors`, and the opposing chicken's
`eggs_laid` grows by `-1 * TRAPDOOR_PENALTY` (i.e. by 4 with the real
constants); if the new location is not a trapdoor, the applied move's
effects are left intact and `found_trapdoors` is unchanged. -/
theorem c8_trapdoor_effects (trapdoors : Finset Loc) (b : Board)
    (dir : Direction) (move_type : MoveType) (timer : Rat)
    (hw : b.winner = none)
    (hv : (apply_move b dir move_type timer true).1 = true) :
    ((apply_move b dir move_type timer true).2.chicken_player.loc ∈ trapdoors →
      ∃ b2, classify_phase trapdoors (.tuple_v dir move_type) timer b = some b2
        ∧ b2.chicken_player.loc =
            (apply_move b dir move_type timer true).2.chicken_player.spawn
        ∧ b2.chicken_enemy.eggs_laid =
            (apply_move b dir move_type timer true).2.chicken_enemy.eggs_laid +
              (-1) * b.game_map.TRAPDOOR_PENALTY
        ∧ b2.found_trapdoors =
            insert (apply_move b dir move_type timer true).2.chicken_player.loc
              (apply_move b dir move_type timer true).2.found_trapdoors)
    ∧ ((apply_move b dir move_type timer true).2.chicken_player.loc ∉ trapdoors →
      ∃ b2, classify_phase trapdoors (.tuple_v dir move_type) timer b = some b2
        ∧ b2.chicken_player = (apply_move b dir move_type timer true).2.chicken_player
        ∧ b2.chicken_enemy = (apply_move b dir move_type timer true).2.chicken_enemy
        ∧ b2.eggs_player = (apply_move b dir move_type timer true).2.eggs_player
        ∧ b2.eggs_enemy = (apply_move b dir move_type timer true).2.eggs_enemy
        ∧ b2.turds_player = (apply_move b dir move_type timer true).2.turds_player
        ∧ b2.turds_enemy = (apply_move b dir move_type timer true).2.turds_enemy
        ∧ b2.found_trapdoors =
            (apply_move b dir move_type timer true).2.found_trapdoors) := by
  have hgm : (apply_move b dir move_type timer true).2.game_map = b.game_map := by
    rw [apply_move_true b dir move_type timer hv]
    rw [end_turn_game_map, move_effects_game_map]
  have hcls : ∀ bmid : Board,
      bmid = (if (apply_move b dir move_type timer true).2.player_time ≤ 0 then
        set_winner (apply_move b dir move_type timer true).2 .enemy .timeout
      else (apply_move b dir move_type timer true).2) →
      classify_phase trapdoors (.tuple_v dir move_type) timer b =
        some (trapdoor_step trapdoors bmid) := by
    intro bmid hmid
    simp [classify_phase, hw, hv, hmid]
  constructor
  · intro hmem
    by_cases hp : (apply_move b dir move_type timer true).2.player_time ≤ 0
    · refine ⟨_, hcls _ (by rw [if_pos hp]), ?_, ?_, ?_⟩ <;>
        simp [trapdoor_step, set_winner, hmem, reset_location,
          increment_eggs_laid, ← hgm]
    · refine ⟨_, hcls _ (by rw [if_neg hp]), ?_, ?_, ?_⟩ <;>
        simp [trapdoor_step, hmem, reset_location, increment_eggs_laid, ← hgm]
  · intro hmem
    by_cases hp : (apply_move b dir move_type timer true).2.player_time ≤ 0
    · refine ⟨_, hcls _ (by rw [if_pos hp]), ?_, ?_, ?_, ?_, ?_, ?_, ?_⟩ <;>
        simp [trapdoor_step, set_winner, hmem]
    · refine ⟨_, hcls _ (by rw [if_neg hp]), ?_, ?_, ?_, ?_, ?_, ?_, ?_⟩ <;>
        simp [trapdoor_step, hmem]

/-- C8 witness: on the concrete board, the plain move up from (0, 2)
lands on the hidden trapdoor (0, 1); the effects follow from the
theorem. -/
theorem c8_trapdoor_witness :
    test_board.winner = none
    ∧ (apply_move test_board .up .plain 1 true).1 = true
    ∧ (apply_move test_board .up .plain 1 true).2.chicken_player.loc ∈
        ({((0 : Int), (1 : Int))} : Finset Loc)
    ∧ (((apply_move test_board .up .plain 1 true).2.chicken_player.loc ∈
        ({((0 : Int), (1 : Int))} : Finset Loc) →
      ∃ b2, classify_phase ({((0 : Int), (1 : Int))} : Finset Loc)
          (.tuple_v .up .plain) 1 test_board = some b2
        ∧ b2.chicken_player.loc =
            (apply_move test_board .up .plain 1 true).2.chicken_player.spawn
        ∧ b2.chicken_enemy.eggs_laid =
            (apply_move test_board .up .plain 1 true).2.chicken_enemy.eggs_laid +
              (-1) * test_board.game_map.TRAPDOOR_PENALTY
        ∧ b2.found_trapdoors =
            insert (apply_move test_board .up .plain 1 true).2.chicken_player.loc
              (apply_move test_board .up .plain 1 true).2.found_trapdoors)) :=
  ⟨by decide, by decide, by decide,
   (c8_trapdoor_effects ({((0 : Int), (1 : Int))} : Finset Loc) test_board
     .up .plain 1 (by decide) (by decide)).1⟩

/-!
Claim C9: the blocking bonus and its ordering against turn exhaustion.
-/

lemma check_win_chicken_blocked (b : Board) (tb : Rat) :
    (check_win b tb).chicken_blocked = b.chicken_blocked := by
  unfold check_win set_winner; split_ifs <;> rfl

/-- Move validity ignores the mover's clock and turn counters, so the
decrements at the top of `end_turn` do not change `has_moves_left`. -/
lemma has_moves_left_decrement (b : Board) (tc tlp : Int) (pt : Rat) :
    has_moves_left
      { b with turn_count := tc, turns_left_player := tlp, player_time := pt }
      true = has_moves_left b true := rfl

/-- C9: when the opponent has no legal moves while still holding turns,
`end_turn` awards the mover a 5-egg bonus and raises the blocking flag;
and because this blocking check runs before `check_win`'s
turn-exhaustion check, a turn on which both conditions apply compares
scores that already include the bonus (the mover wins by `EGGS_LAID`
whenever its pre-bonus eggs plus 5 exceed the opponent's). -/
theorem c9_blocking_bonus_before_exhaustion (b : Board) (move_type : MoveType)
    (timer : Rat)
    (hblock : has_moves_left b true = false)
    (hturns : b.turns_left_enemy > 0) :
    ((end_turn b move_type timer).chicken_player.eggs_laid =
        b.chicken_player.eggs_laid + 5
      ∧ (end_turn b move_type timer).chicken_blocked = true)
    ∧ (0 < b.player_time - timer → 0 < b.enemy_time →
        b.turn_count + 1 ≥ 2 * b.MAX_TURNS →
        b.chicken_enemy.eggs_laid < b.chicken_player.eggs_laid + 5 →
        (end_turn b move_type timer).winner = some .player
          ∧ (end_turn b move_type timer).win_reason = some .eggs_laid) := by
  have hcond : has_moves_left
      { b with turn_count := b.turn_count + 1,
               turns_left_player := b.turns_left_player - 1,
               player_time := b.player_time - timer } true = false ∧
      (b.turns_left_enemy > 0) := ⟨by rw [has_moves_left_decrement]; exact hblock, hturns⟩
  constructor
  · constructor
    · show (end_turn b move_type timer).chicken_player.eggs_laid = _
      simp only [end_turn, if_pos hcond]
      rw [check_win_chicken_player]
      rfl
    · show (end_turn b move_type timer).chicken_blocked = true
      simp only [end_turn, if_pos hcond]
      rw [check_win_chicken_blocked]
  · intro h1 h2 h3 h4
    have hnp : ¬ ((b.player_time - timer) ≤ 0) := not_le.mpr h1
    have hne : ¬ ((b.enemy_time : Rat) ≤ 0) := not_le.mpr h2
    have hlt : ¬ (b.chicken_player.eggs_laid + 5 < b.chicken_enemy.eggs_laid) := by
      omega
    have hgt : b.chicken_player.eggs_laid + 5 > b.chicken_enemy.eggs_laid := h4
    constructor <;>
      · simp only [end_turn, if_pos hcond]
        rw [check_win]
        simp only [increment_eggs_laid]
        rw [if_neg hnp, if_neg hne,
          if_pos (Or.inr (show b.turn_count + 1 ≥ 2 * b.MAX_TURNS from h3)),
          if_neg hlt, if_pos hgt]
        rfl

/-- A concrete board on which the enemy (at (0, 0)) has no legal move:
both in-bounds destinations carry the mover's eggs; the mover still has
3 enemy turns outstanding and the 80-turn budget is reached this turn. -/
def c9_board : Board :=
  { game_map := game_map0
    eggs_player := {((1 : Int), (0 : Int)), ((0 : Int), (1 : Int))}
    eggs_enemy := ∅
    turds_player := ∅
    turds_enemy := ∅
    chicken_player :=
      { turds_left := 5, eggs_laid := 0, loc := (5, 5), spawn := (5, 5),
        even_chicken := 0 }
    chicken_enemy :=
      { turds_left := 5, eggs_laid := 0, loc := (0, 0), spawn := (0, 0),
        even_chicken := 1 }
    found_trapdoors := ∅
    turn_count := 79
    MAX_TURNS := 40
    turns_left_player := 10
    turns_left_enemy := 3
    winner := none
    time_to_play := 360
    player_time := 10
    enemy_time := 10
    win_reason := none
    chicken_blocked := false
    is_as_turn := true }

/-- C9 witness: on `c9_board` the blocked opponent yields the 5-egg
bonus and the blocking flag, and with both terminal conditions live the
bonus decides the `EGGS_LAID` comparison. -/
theorem c9_blocking_witness :
    has_moves_left c9_board true = false
    ∧ c9_board.turns_left_enemy > 0
    ∧ (((end_turn c9_board .plain 1).chicken_player.eggs_laid =
          c9_board.chicken_player.eggs_laid + 5
        ∧ (end_turn c9_board .plain 1).chicken_blocked = true)
      ∧ (0 < c9_board.player_time - 1 → 0 < c9_board.enemy_time →
          c9_board.turn_count + 1 ≥ 2 * c9_board.MAX_TURNS →
          c9_board.chicken_enemy.eggs_laid <
            c9_board.chicken_player.eggs_laid + 5 →
          (end_turn c9_board .plain 1).winner = some .player
            ∧ (end_turn c9_board .plain 1).win_reason = some .eggs_laid)) :=
  ⟨by decide, by decide,
   c9_blocking_bonus_before_exhaustion c9_board .plain 1 (by decide) (by decide)⟩

/-!
Claim C4: the terminal reason is written once and never overwritten.
-/

/-- C4: once the board carries a winner and reason, every later
operation of the match loop leaves `win_reason` unchanged: (i) the
per-turn classification is guarded on the winner being unset and passes
a terminated board through untouched; (ii) even within the turn that
terminates the match, the reason recorded by `apply_move`'s internal
`check_win` survives the subsequent clock re-check (which can only
re-write the same `TIMEOUT` value) and the trapdoor bookkeeping;
(iii) the perspective flip, (iv) the loop itself on a terminated board,
and (v) the final identity translation all preserve `win_reason`. -/
theorem c4_win_reason_set_once :
    (∀ (trapdoors : Finset Loc) (m : MovesVal) (t : Rat) (b : Board),
        b.winner.isSome = true → classify_phase trapdoors m t b = some b)
    ∧ (∀ (trapdoors : Finset Loc) (b : Board) (dir : Direction)
         (move_type : MoveType) (t : Rat) (r : WinReason),
        b.winner = none → b.win_reason = none →
        (apply_move b dir move_type t true).1 = true →
        (apply_move b dir move_type t true).2.win_reason = some r →
        (classify_phase trapdoors (.tuple_v dir move_type) t b).map
          Board.win_reason = some (some r))
    ∧ (∀ b : Board, (post_phase b).win_reason = b.win_reason)
    ∧ (∀ (trapdoors : Finset Loc) (os : List TurnOracle) (b : Board),
        b.winner.isSome = true → match_loop trapdoors os b = (some b, []))
    ∧ (∀ b : Board, (finalize b).1.win_reason = b.win_reason) := by
  refine ⟨?_, ?_, post_phase_win_reason, ?_, fun _ => rfl⟩
  · intro trapdoors m t b h
    obtain ⟨w, hw⟩ := Option.isSome_iff_exists.mp h
    simp [classify_phase, hw]
  · intro trapdoors b dir move_type t r hw hwr hv hr
    have happ := apply_move_true b dir move_type t hv
    by_cases hp : (apply_move b dir move_type t true).2.player_time ≤ 0
    · have htime : (move_effects b dir move_type).player_time - t ≤ 0 := by
        rw [happ] at hp
        rwa [end_turn_player_time] at hp
      have hto : (apply_move b dir move_type t true).2.win_reason =
          some .timeout := by
        rw [happ]
        exact end_turn_reason_nonpos _ move_type _ htime
      have hrt : r = .timeout := by
        rw [hto] at hr
        exact (Option.some.inj hr).symm
      simp [classify_phase, hw, hv, hp, trapdoor_step_win_reason, set_winner, hrt]
    · simp [classify_phase, hw, hv, hp, trapdoor_step_win_reason, hr]
  · intro trapdoors os b h
    cases os <;> simp [match_loop, is_game_over, h]

/-- A concrete board one second from exhausting its clock. -/
def c4_board : Board := { test_board with player_time := 1 }

/-- C4 witness: the terminating turn on `c4_board` records `TIMEOUT`
inside `apply_move` and the classification step delivers the same
reason unchanged. -/
theorem c4_win_reason_witness :
    c4_board.winner = none
    ∧ c4_board.win_reason = none
    ∧ (apply_move c4_board .up .plain 2 true).1 = true
    ∧ (apply_move c4_board .up .plain 2 true).2.win_reason = some .timeout
    ∧ (classify_phase ∅ (.tuple_v .up .plain) 2 c4_board).map
        Board.win_reason = some (some .timeout) :=
  ⟨by decide, by decide, by decide, by decide,
   c4_win_reason_set_once.2.1 ∅ c4_board .up .plain 2 .timeout
     (by decide) (by decide) (by decide) (by decide)⟩

/-!
Claim C6: construction failures end the match before any Play.
-/

lemma init_trace_no_play (env : MatchEnv) :
    (init_trace env).all (fun e => ! is_play_ev e) = true := by
  unfold init_trace ready_trace ctor_trace
  cases ha : env.ready_a <;> cases hb : env.ready_b <;>
    simp [ha, hb, is_play_ev]

/-- C6: if a side fails construction (readiness handshake or the timed
constructor failing or timing out), `play_game` returns with reason
`FAILED_INIT`, the win goes to the opposing side (a tie when both
failed), and no Play command is ever issued. -/
theorem c6_failed_init_no_play (env : MatchEnv)
    (h : success_a env = false ∨ success_b env = false) :
    (play_game env).1.map (fun p => (p.1.win_reason, p.2)) =
      some (some .failed_init,
        if success_a env = false ∧ success_b env = false then ResultArbiter.tie
        else if success_a env = false then ResultArbiter.player_b
        else ResultArbiter.player_a)
    ∧ (play_game env).2.all (fun e => ! is_play_ev e) = true := by
  by_cases ha : success_a env = false <;> by_cases hb : success_b env = false
  · simp [play_game, ha, hb, set_winner, init_trace_no_play]
  · simp [play_game, ha, hb, set_winner, init_trace_no_play]
  · simp [play_game, ha, hb, set_winner, init_trace_no_play]
  · rcases h with h | h
    · exact absurd h ha
    · exact absurd h hb

/-- An environment in which side B's readiness signal never arrives. -/
def c6_env : MatchEnv := { test_env true [] ∅ with ready_b := false }

/-- C6 witness: with B failing its readiness handshake, the concrete
match ends `FAILED_INIT` in favor of A with no Play issued. -/
theorem c6_failed_init_witness :
    (success_a c6_env = false ∨ success_b c6_env = false)
    ∧ ((play_game c6_env).1.map (fun p => (p.1.win_reason, p.2)) =
        some (some .failed_init,
          if success_a c6_env = false ∧ success_b c6_env = false then
            ResultArbiter.tie
          else if success_a c6_env = false then ResultArbiter.player_b
          else ResultArbiter.player_a)
      ∧ (play_game c6_env).2.all (fun e => ! is_play_ev e) = true) :=
  ⟨Or.inr (by decide), c6_failed_init_no_play c6_env (Or.inr (by decide))⟩

/-!
Claim C5: `get_copy` shares no mutable state with the original.
-/

lemma copy_store_sets (b : PyBoard) (σ : Store) (x : Nat)
    (hx : x < σ.next_addr) :
    ((py_get_copy b σ).2).sets x = σ.sets x := by
  simp only [py_get_copy, Store.alloc_set, Store.alloc_chicken]
  rw [Function.update_noteq (by omega), Function.update_noteq (by omega),
    Function.update_noteq (by omega), Function.update_noteq (by omega),
    Function.update_noteq (by omega)]

lemma copy_store_chickens (b : PyBoard) (σ : Store) (x : Nat)
    (hx : x < σ.next_addr) :
    ((py_get_copy b σ).2).chickens x = σ.chickens x := by
  simp only [py_get_copy, Store.alloc_set, Store.alloc_chicken]
  rw [Function.update_noteq (by omega), Function.update_noteq (by omega)]

lemma copy_set_refs (b : PyBoard) (σ : Store) :
    set_refs (py_get_copy b σ).1 =
      [σ.next_addr, σ.next_addr + 1, σ.next_addr + 2, σ.next_addr + 3,
       σ.next_addr + 4] := rfl

lemma copy_chicken_refs (b : PyBoard) (σ : Store) :
    chicken_refs (py_get_copy b σ).1 =
      [σ.next_addr + 5, σ.next_addr + 6] := rfl

/-- C5: `get_copy` produces a board whose seven mutable sub-objects live
at fresh addresses: creating the copy leaves every observation of the
original unchanged, and mutating any set or chicken object reachable
from the copy is unobservable through the original board.  Scalar
attributes are copied by value into the new board object, so rebinding
them on the copy cannot touch the original either. -/
theorem c5_get_copy_no_aliasing (b : PyBoard) (σ : Store) (h : wf_board b σ) :
    observe_board b (py_get_copy b σ).2 = observe_board b σ
    ∧ (∀ a : Nat, a ∈ set_refs (py_get_copy b σ).1 → ∀ v : Finset Loc,
        observe_board b (write_set (py_get_copy b σ).2 a v) = observe_board b σ)
    ∧ (∀ a : Nat, a ∈ chicken_refs (py_get_copy b σ).1 → ∀ c : Chicken,
        observe_board b (write_chicken (py_get_copy b σ).2 a c) =
          observe_board b σ) := by
  obtain ⟨h1, h2, h3, h4, h5, h6, h7⟩ := h
  refine ⟨?_, ?_, ?_⟩
  · simp only [observe_board, Prod.mk.injEq]
    exact ⟨⟨copy_store_sets b σ _ h1, copy_store_sets b σ _ h2,
      copy_store_sets b σ _ h3, copy_store_sets b σ _ h4,
      copy_store_sets b σ _ h5⟩,
      ⟨copy_store_chickens b σ _ h6, copy_store_chickens b σ _ h7⟩, trivial⟩
  · intro a ha v
    rw [copy_set_refs] at ha
    simp only [List.mem_cons, List.not_mem_nil, or_false] at ha
    have han : σ.next_addr ≤ a := by rcases ha with h | h | h | h | h <;> omega
    have hsets : ∀ x : Nat, x < σ.next_addr →
        (write_set (py_get_copy b σ).2 a v).sets x = σ.sets x := by
      intro x hx
      rw [write_set]
      show Function.update ((py_get_copy b σ).2).sets a v x = σ.sets x
      rw [Function.update_noteq (by omega)]
      exact copy_store_sets b σ x hx
    simp only [observe_board, Prod.mk.injEq]
    exact ⟨⟨hsets _ h1, hsets _ h2, hsets _ h3, hsets _ h4, hsets _ h5⟩,
      ⟨copy_store_chickens b σ _ h6, copy_store_chickens b σ _ h7⟩, trivial⟩
  · intro a ha c
    rw [copy_chicken_refs] at ha
    simp only [List.mem_cons, List.not_mem_nil, or_false] at ha
    have han : σ.next_addr ≤ a := by rcases ha with h | h <;> omega
    have hchick : ∀ x : Nat, x < σ.next_addr →
        (write_chicken (py_get_copy b σ).2 a c).chickens x = σ.chickens x := by
      intro x hx
      rw [write_chicken]
      show Function.update ((py_get_copy b σ).2).chickens a c x = σ.chickens x
      rw [Function.update_noteq (by omega)]
      exact copy_store_chickens b σ x hx
    simp only [observe_board, Prod.mk.injEq]
    exact ⟨⟨copy_store_sets b σ _ h1, copy_store_sets b σ _ h2,
      copy_store_sets b σ _ h3, copy_store_sets b σ _ h4,
      copy_store_sets b σ _ h5⟩,
      ⟨hchick _ h6, hchick _ h7⟩, trivial⟩

/-- A concrete two-object heap layout for the no-aliasing witness. -/
def c5_pyboard : PyBoard :=
  { eggs_player_ref := 0, eggs_enemy_ref := 1, turds_player_ref := 2,
    turds_enemy_ref := 3, found_trapdoors_ref := 4, chicken_player_ref := 5,
    chicken_enemy_ref := 6, turn_count := 0, max_turns := 40,
    turns_left_player := 40, turns_left_enemy := 40, winner := none,
    time_to_play := 360, player_time := 360, enemy_time := 360,
    win_reason := none, chicken_blocked := false, is_as_turn := true }

/-- The heap backing `c5_pyboard`: seven live objects. -/
def c5_store : Store :=
  { sets := fun _ => ∅
    chickens := fun _ =>
      { turds_left := 5, eggs_laid := 0, loc := (0, 2), spawn := (0, 2),
        even_chicken := 0 }
    next_addr := 7 }

/-- C5 witness: the aliasing-freedom theorem applied to the concrete
heap. -/
theorem c5_get_copy_witness :
    wf_board c5_pyboard c5_store
    ∧ (observe_board c5_pyboard (py_get_copy c5_pyboard c5_store).2 =
        observe_board c5_pyboard c5_store
      ∧ (∀ a : Nat, a ∈ set_refs (py_get_copy c5_pyboard c5_store).1 →
          ∀ v : Finset Loc,
          observe_board c5_pyboard
            (write_set (py_get_copy c5_pyboard c5_store).2 a v) =
            observe_board c5_pyboard c5_store)
      ∧ (∀ a : Nat, a ∈ chicken_refs (py_get_copy c5_pyboard c5_store).1 →
          ∀ c : Chicken,
          observe_board c5_pyboard
            (write_chicken (py_get_copy c5_pyboard c5_store).2 a c) =
            observe_board c5_pyboard c5_store)) :=
  ⟨by constructor <;> norm_num [wf_board, c5_pyboard, c5_store],
   c5_get_copy_no_aliasing c5_pyboard c5_store
     (by constructor <;> norm_num [wf_board, c5_pyboard, c5_store])⟩

/-!
Claim C1: mutual exclusion of the two process trees during PLAYING.
-/

/-- Safety of a PLAYING-phase event trace under `limit_resources = true`,
starting from both trees suspended: at every instant at most one tree is
runnable; at the instant a Play command is issued the opposing tree is
suspended; and every Play command is immediately preceded by the active
side's resume and immediately followed by its suspend. -/
def good_trace (tr : List Ev) : Prop :=
  (∀ n : Nat, running_count ((tr.take n).foldl (apply_ev true) ⟨false, false⟩) ≤ 1)
  ∧ (∀ (n : Nat) (s : Side), tr.get? n = some (.play_cmd s) →
      side_running ((tr.take n).foldl (apply_ev true) ⟨false, false⟩) (other s) =
        false)
  ∧ (∀ (n : Nat) (s : Side), tr.get? n = some (.play_cmd s) →
      tr.get? (n - 1) = some (.restart_ev s) ∧
        tr.get? (n + 1) = some (.pause_ev s))

lemma good_trace_nil : good_trace [] := by
  refine ⟨fun n => ?_, fun n s h => ?_, fun n s h => ?_⟩
  · simp [running_count]
  · simp at h
  · simp at h

lemma good_trace_cons (s : Side) (tr : List Ev) (h : good_trace tr) :
    good_trace (.restart_ev s :: .play_cmd s :: .pause_ev s :: tr) := by
  obtain ⟨hc, hp, hb⟩ := h
  have h3 : apply_ev true (apply_ev true (apply_ev true ⟨false, false⟩
      (.restart_ev s)) (.play_cmd s)) (.pause_ev s) = (⟨false, false⟩ : SchedState) := by
    cases s <;> rfl
  refine ⟨?_, ?_, ?_⟩
  · intro n
    match n with
    | 0 => simp [running_count]
    | 1 =>
      cases s <;> simp [running_count, apply_ev, set_running]
    | 2 =>
      cases s <;> simp [running_count, apply_ev, set_running]
    | (m + 3) =>
      show running_count ((Ev.restart_ev s :: Ev.play_cmd s :: Ev.pause_ev s ::
        tr.take m).foldl (apply_ev true) ⟨false, false⟩) ≤ 1
      simp only [List.foldl_cons]
      rw [h3]
      exact hc m
  · intro n s' hg
    match n with
    | 0 => simp at hg
    | 1 =>
      have hs : s = s' := by simpa using hg
      subst hs
      cases s <;> simp [apply_ev, set_running, side_running, other]
    | 2 => simp at hg
    | (m + 3) =>
      have hg' : tr.get? m = some (.play_cmd s') := hg
      show side_running ((Ev.restart_ev s :: Ev.play_cmd s :: Ev.pause_ev s ::
        tr.take m).foldl (apply_ev true) ⟨false, false⟩) (other s') = false
      simp only [List.foldl_cons]
      rw [h3]
      exact hp m s' hg'
  · intro n s' hg
    match n with
    | 0 => simp at hg
    | 1 =>
      have hs : s = s' := by simpa using hg
      subst hs
      exact ⟨rfl, rfl⟩
    | 2 => simp at hg
    | (m + 3) =>
      have hg' : tr.get? m = some (.play_cmd s') := hg
      match m with
      | 0 =>
        exfalso
        have h0 := (hb 0 s' hg').1
        rw [hg'] at h0
        simp at h0
      | (k + 1) =>
        exact ⟨(hb (k + 1) s' hg').1, (hb (k + 1) s' hg').2⟩

lemma match_loop_good (os : List TurnOracle) (tds : Finset Loc) (b : Board) :
    good_trace (match_loop tds os b).2 := by
  induction os generalizing b with
  | nil => simpa [match_loop] using good_trace_nil
  | cons o rest ih =>
    rw [match_loop]
    by_cases hover : is_game_over b = true
    · simp only [hover, if_true]
      exact good_trace_nil
    · have hov : is_game_over b = false := by
        simpa using hover
      simp only [hov, Bool.false_eq_true, if_false]
      rcases hst : step_turn tds o b with _ | b2 <;>
        simp only [hst, turn_trace]
      · exact good_trace_cons _ [] good_trace_nil
      · exact good_trace_cons _ _ (ih b2)

lemma ready_of_success (env : MatchEnv) (ha : success_a env = true)
    (hb : success_b env = true) : env.ready_a = true ∧ env.ready_b = true := by
  by_cases h : (env.ready_a && env.ready_b) = true
  · exact ⟨((Bool.and_eq_true _ _).mp h).1, ((Bool.and_eq_true _ _).mp h).2⟩
  · rw [success_a, if_neg h] at ha
    rw [success_b, if_neg h] at hb
    rw [ha, hb] at h
    simp at h

lemma init_state_stopped (env : MatchEnv) (ha : env.ready_a = true)
    (hb : env.ready_b = true) :
    state_at true (init_trace env) = ⟨false, false⟩ := by
  simp only [state_at, init_trace, ready_trace, ctor_trace, ha, hb]
  rfl

/-- C1 (amended): when resource limiting is enabled, throughout the
PLAYING phase at most one agent's process tree is runnable at any
sampled instant; at the instant a Play is issued to one side, the other
side's tree is suspended; and each Play is bracketed by the active
side's resume immediately before and suspend immediately after. -/
theorem c1_mutual_exclusion_with_limits (env : MatchEnv)
    (hlr : env.limit_resources = true)
    (ha : success_a env = true) (hb : success_b env = true) (n : Nat) :
    running_count (state_at env.limit_resources
      (init_trace env ++ (loop_trace env).take n)) ≤ 1
    ∧ (∀ s : Side, (loop_trace env).get? n = some (.play_cmd s) →
        side_running (state_at env.limit_resources
          (init_trace env ++ (loop_trace env).take n)) (other s) = false)
    ∧ (∀ s : Side, (loop_trace env).get? n = some (.play_cmd s) →
        (loop_trace env).get? (n - 1) = some (.restart_ev s)
        ∧ (loop_trace env).get? (n + 1) = some (.pause_ev s)) := by
  obtain ⟨hra, hrb⟩ := ready_of_success env ha hb
  have h0 : (init_trace env).foldl (apply_ev true) ⟨false, false⟩ =
      (⟨false, false⟩ : SchedState) := init_state_stopped env hra hrb
  have hst : state_at env.limit_resources
      (init_trace env ++ (loop_trace env).take n) =
      ((loop_trace env).take n).foldl (apply_ev true) ⟨false, false⟩ := by
    rw [hlr, state_at, List.foldl_append, h0]
  have hg := match_loop_good env.turn_oracles env.trapdoors (initial_board env)
  refine ⟨?_, ?_, ?_⟩
  · rw [hst]
    exact hg.1 n
  · intro s h
    rw [hst]
    exact hg.2.1 n s h
  · intro s h
    exact hg.2.2 n s h

/-- A full match without resource limiting: the pause/resume sweeps are
no-ops. -/
def c1_env : MatchEnv := test_env false [{ send := none, arrival := 0 }] ∅

/-- The same match with resource limiting enabled. -/
def c1w_env : MatchEnv := test_env true [{ send := none, arrival := 0 }] ∅

/-- C1 counterexample: with `limit_resources = False` (the default of
`play_game` and what `run_local_agents` uses), at the instant the first
Play is issued to side A during PLAYING, side B's process tree has never
been suspended — both trees are runnable, refuting "at most one agent's
process tree is in the running state" as stated. -/
theorem c1_no_limits_counterexample :
    c1_env.limit_resources = false
    ∧ success_a c1_env = true
    ∧ success_b c1_env = true
    ∧ (loop_trace c1_env).get? 1 = some (.play_cmd .a)
    ∧ side_running (state_at c1_env.limit_resources
        (init_trace c1_env ++ (loop_trace c1_env).take 1)) .b = true
    ∧ running_count (state_at c1_env.limit_resources
        (init_trace c1_env ++ (loop_trace c1_env).take 1)) = 2 := by
  decide

/-- C1 witness: the amended mutual-exclusion guarantee applied to a
concrete limited-resource match, sampled at the first Play instant. -/
theorem c1_mutual_exclusion_witness :
    c1w_env.limit_resources = true
    ∧ success_a c1w_env = true
    ∧ success_b c1w_env = true
    ∧ (running_count (state_at c1w_env.limit_resources
        (init_trace c1w_env ++ (loop_trace c1w_env).take 1)) ≤ 1
      ∧ (∀ s : Side, (loop_trace c1w_env).get? 1 = some (.play_cmd s) →
          side_running (state_at c1w_env.limit_resources
            (init_trace c1w_env ++ (loop_trace c1w_env).take 1)) (other s) =
            false)
      ∧ (∀ s : Side, (loop_trace c1w_env).get? 1 = some (.play_cmd s) →
          (loop_trace c1w_env).get? (1 - 1) = some (.restart_ev s)
          ∧ (loop_trace c1w_env).get? (1 + 1) = some (.pause_ev s))) :=
  ⟨rfl, by decide, by decide,
   c1_mutual_exclusion_with_limits c1w_env rfl (by decide) (by decide) 1⟩

end ChickenGame
